import Mathlib

/-!
Verification of the torch-moveit RobotModel binding surface
(src/src/robot_model.cpp) against its specification.

The binding exposes an opaque handle, a heap-allocated
`robot_model::RobotModelPtr` (a shared pointer cell), together with
allocation (`RobotModel_new`), deallocation (`RobotModel_delete`),
resetting the ownership slot (`RobotModel_release`) and five read-only
query forwards.  We embed the binding shallowly: the machine state is a
handle heap mapping addresses to ownership slots plus a model heap that
holds the shared underlying models; every dereference the C code performs
without a guard is modelled as a fallible step in `Option`, where `none`
stands for undefined behaviour.
-/

/-- Modelled from the spec: the native MoveIt robot model wrapped by the
binding is outside this repository.  Per the spec it carries a name, a
root reference-frame name, a content-emptiness flag and a root joint
name, each reported by the corresponding accessor that the binding
forwards to. -/
structure RobotModel where
  name : String
  modelFrame : String
  isEmptyFlag : Bool
  rootJointName : String
deriving DecidableEq

/-- Modelled from the spec: the diagnostic-dump routine of the native
model writes a description of the model into a text stream; per the spec
the accumulated text is non-empty and contains the model name as a
substring. -/
def RobotModel.printModelInfoText (r : RobotModel) : String :=
  "Model " ++ r.name ++ (" in frame " ++ r.modelFrame)

/-- A handle value crossing the binding boundary: the null pointer or a
pointer to an allocated handle cell. -/
inductive Handle where
  | null : Handle
  | ptr : Nat → Handle
deriving DecidableEq

/-- Machine state of the binding: `cells` maps allocated handle addresses
to ownership slots (an empty slot is `none`, a populated slot holds the
identifier of the shared underlying model), `models` is the heap of
underlying models shared between handles, `next` is the next fresh
address. -/
structure Mem where
  cells : List (Nat × Option Nat)
  models : List (Nat × RobotModel)
  next : Nat
deriving DecidableEq

/-- Read the ownership slot at handle address `a`; `none` when `a` is not
an allocated handle. -/
def Mem.lookup (m : Mem) (a : Nat) : Option (Option Nat) :=
  (m.cells.find? (fun p => p.1 == a)).map Prod.snd

/-- Read the underlying model with identifier `mid` from the model heap. -/
def Mem.modelAt (m : Mem) (mid : Nat) : Option RobotModel :=
  (m.models.find? (fun p => p.1 == mid)).map Prod.snd

/-- Overwrite the ownership slot at handle address `a`. -/
def Mem.store (m : Mem) (a : Nat) (s : Option Nat) : Mem :=
  { m with cells := m.cells.map (fun p => if p.1 == a then (a, s) else p) }

/-- Deallocate the handle cell at address `a`. -/
def Mem.free (m : Mem) (a : Nat) : Mem :=
  { m with cells := m.cells.filter (fun p => !(p.1 == a)) }

/-- Allocate a fresh handle cell with an empty ownership slot. -/
def Mem.alloc (m : Mem) : Mem × Nat :=
  ({ m with cells := (m.next, (none : Option Nat)) :: m.cells, next := m.next + 1 }, m.next)

/-- Number of handle ownership slots referring to model `mid` (the
reference count the shared pointers maintain for that model). -/
def Mem.refCount (m : Mem) (mid : Nat) : Nat :=
  m.cells.countP (fun p => p.2 == some mid)

/-- `MOVIMP(RobotModelPtr*, RobotModel, new)`: `return new RobotModelPtr()`
allocates a fresh handle holding a default-constructed (empty) shared
pointer. -/
def RobotModel_new (m : Mem) : Mem × Handle :=
  ((m.alloc).1, Handle.ptr (m.alloc).2)

/-- `MOVIMP(void, RobotModel, delete)`: `if (ptr) delete ptr` — guarded
no-op on null; deletes the handle cell otherwise (deleting an address
that is not an allocated handle is undefined behaviour). -/
def RobotModel_delete (m : Mem) (h : Handle) : Option Mem :=
  match h with
  | Handle.null => some m
  | Handle.ptr a =>
    match m.lookup a with
    | none => none
    | some _ => some (m.free a)

/-- `MOVIMP(void, RobotModel, release)`: `ptr->reset()` — dereferences the
handle unguarded (undefined behaviour on null or dangling) and resets the
ownership slot to empty. -/
def RobotModel_release (m : Mem) (h : Handle) : Option Mem :=
  match h with
  | Handle.null => none
  | Handle.ptr a =>
    match m.lookup a with
    | none => none
    | some _ => some (m.store a none)

/-- `MOVIMP(const char *, RobotModel, getName)`:
`return (*ptr)->getName().c_str()` — double dereference without
validation, then the model name. -/
def RobotModel_getName (m : Mem) (h : Handle) : Option (Mem × String) :=
  match h with
  | Handle.null => none
  | Handle.ptr a =>
    match m.lookup a with
    | none => none
    | some none => none
    | some (some mid) =>
      match m.modelAt mid with
      | none => none
      | some r => some (m, r.name)

/-- `MOVIMP(const char *, RobotModel, getModelFrame)`:
`return (*ptr)->getModelFrame().c_str()`. -/
def RobotModel_getModelFrame (m : Mem) (h : Handle) : Option (Mem × String) :=
  match h with
  | Handle.null => none
  | Handle.ptr a =>
    match m.lookup a with
    | none => none
    | some none => none
    | some (some mid) =>
      match m.modelAt mid with
      | none => none
      | some r => some (m, r.modelFrame)

/-- `MOVIMP(bool, RobotModel, isEmpty)`: `return (*ptr)->isEmpty()`. -/
def RobotModel_isEmpty (m : Mem) (h : Handle) : Option (Mem × Bool) :=
  match h with
  | Handle.null => none
  | Handle.ptr a =>
    match m.lookup a with
    | none => none
    | some none => none
    | some (some mid) =>
      match m.modelAt mid with
      | none => none
      | some r => some (m, r.isEmptyFlag)

/-- `MOVIMP(void, RobotModel, printModelInfo)`: dumps the model into a
fresh `stringstream` and assigns (`*output = s.str()`) the accumulated
text to the caller-supplied output string, discarding its prior value. -/
def RobotModel_printModelInfo (m : Mem) (h : Handle) (output : String) :
    Option (Mem × String) :=
  match h with
  | Handle.null => none
  | Handle.ptr a =>
    match m.lookup a with
    | none => none
    | some none => none
    | some (some mid) =>
      match m.modelAt mid with
      | none => none
      | some r => some (m, r.printModelInfoText)

/-- `MOVIMP(const char *, RobotModel, getRootJointName)`:
`return (*ptr)->getRootJointName().c_str()`. -/
def RobotModel_getRootJointName (m : Mem) (h : Handle) : Option (Mem × String) :=
  match h with
  | Handle.null => none
  | Handle.ptr a =>
    match m.lookup a with
    | none => none
    | some none => none
    | some (some mid) =>
      match m.modelAt mid with
      | none => none
      | some r => some (m, r.rootJointName)

/-- A concrete underlying model named panda, used to instantiate the
universally quantified theorems below. -/
def pandaModel : RobotModel :=
  { name := "panda", modelFrame := "world", isEmptyFlag := false,
    rootJointName := "virtual_joint" }

/-- A concrete machine state: one populated handle at address 0 whose
slot refers to the panda model. -/
def memPanda : Mem :=
  { cells := [(0, some 0)], models := [(0, pandaModel)], next := 1 }

/-- A concrete machine state with two handles (addresses 0 and 1) whose
ownership slots share the same underlying panda model. -/
def memShared : Mem :=
  { cells := [(0, some 0), (1, some 0)], models := [(0, pandaModel)], next := 2 }

/-- A concrete machine state with one allocated handle whose ownership
slot is already empty. -/
def memCleared : Mem :=
  { cells := [(0, none)], models := [(0, pandaModel)], next := 1 }

/-- A concrete machine state with a populated handle at address 0 and an
allocated handle with an empty ownership slot at address 1. -/
def memMixed : Mem :=
  { cells := [(0, some 0), (1, none)], models := [(0, pandaModel)], next := 2 }

theorem find?_map_store (a : Nat) (s : Option Nat) (l : List (Nat × Option Nat))
    (h : (l.find? (fun p => p.1 == a)).isSome) :
    (l.map (fun p => if p.1 == a then (a, s) else p)).find? (fun p => p.1 == a)
      = some (a, s) := by
  induction l with
  | nil => simp [List.find?] at h
  | cons p tl ih =>
    by_cases hp : (p.1 == a) = true
    · rw [List.map_cons, if_pos hp]
      exact List.find?_cons_of_pos _ (by simp)
    · rw [List.find?_cons_of_neg (p := fun q => q.1 == a) tl hp] at h
      rw [List.map_cons, if_neg hp]
      rw [List.find?_cons_of_neg (p := fun q : Nat × Option Nat => q.1 == a)
        (List.map (fun q => if q.1 == a then (a, s) else q) tl) hp]
      exact ih h

theorem Mem.lookup_store (m : Mem) (a : Nat) (s : Option Nat)
    (h : (m.lookup a).isSome) : (m.store a s).lookup a = some s := by
  have hf : (m.cells.find? (fun p => p.1 == a)).isSome := by
    unfold Mem.lookup at h
    cases hx : m.cells.find? (fun p => p.1 == a) with
    | none => rw [hx] at h; simp at h
    | some q => simp
  simp only [Mem.lookup, Mem.store]
  rw [find?_map_store a s m.cells hf]
  rfl

theorem Mem.lookup_free (m : Mem) (a : Nat) : (m.free a).lookup a = none := by
  simp only [Mem.lookup, Mem.free]
  have hnone : (m.cells.filter (fun p => !(p.1 == a))).find? (fun p => p.1 == a)
      = none := by
    rw [List.find?_eq_none]
    intro x hx
    rcases List.mem_filter.mp hx with ⟨-, hpred⟩
    simpa using hpred
  rw [hnone]
  rfl

theorem Mem.store_store (m : Mem) (a : Nat) :
    (m.store a none).store a none = m.store a none := by
  simp only [Mem.store]
  rw [List.map_map]
  congr 1
  apply List.map_congr_left
  intro p _
  by_cases hp : (p.1 == a) = true <;>
    simp [Function.comp, hp]

theorem lookup_find? (m : Mem) (a : Nat) (s : Option Nat)
    (h : m.lookup a = some s) :
    m.cells.find? (fun p => p.1 == a) = some (a, s) := by
  unfold Mem.lookup at h
  cases hx : m.cells.find? (fun p => p.1 == a) with
  | none => rw [hx] at h; simp at h
  | some q =>
    rw [hx] at h
    have hq2 : q.2 = s := by simpa using h
    have hq1 : q.1 = a := by
      have hpq := List.find?_some hx
      simpa using hpq
    rw [← hq1, ← hq2]

theorem map_id_of_eq (f : Nat × Option Nat → Nat × Option Nat)
    (l : List (Nat × Option Nat)) (h : ∀ q ∈ l, f q = q) : l.map f = l := by
  induction l with
  | nil => rfl
  | cons p tl ih =>
    rw [List.map_cons, h p (List.mem_cons_self p tl),
      ih (fun q hq => h q (List.mem_cons_of_mem p hq))]

theorem store_fun_skips (a : Nat) (tl : List (Nat × Option Nat))
    (hnotin : a ∉ tl.map Prod.fst) :
    tl.map (fun q => if q.1 == a then (a, (none : Option Nat)) else q) = tl := by
  apply map_id_of_eq
  intro q hq
  by_cases hqa : (q.1 == a) = true
  · exfalso
    apply hnotin
    have hq1 : q.1 = a := by simpa using hqa
    rw [← hq1]
    exact List.mem_map_of_mem Prod.fst hq
  · rw [if_neg hqa]

theorem countP_map_store (a mid : Nat) (l : List (Nat × Option Nat))
    (hnd : (l.map Prod.fst).Nodup)
    (hmem : l.find? (fun p => p.1 == a) = some (a, some mid)) :
    (l.map (fun p => if p.1 == a then (a, (none : Option Nat)) else p)).countP
        (fun p => p.2 == some mid) + 1
      = l.countP (fun p => p.2 == some mid) := by
  induction l with
  | nil => simp at hmem
  | cons p tl ih =>
    rw [List.map_cons, List.nodup_cons] at hnd
    obtain ⟨hnotin, hndtl⟩ := hnd
    by_cases hp : (p.1 == a) = true
    · rw [List.find?_cons_of_pos (p := fun q : Nat × Option Nat => q.1 == a) tl hp]
        at hmem
      have hpe : p = (a, some mid) := Option.some.inj hmem
      subst hpe
      have hna : a ∉ tl.map Prod.fst := by simpa using hnotin
      rw [List.map_cons, if_pos hp, store_fun_skips a tl hna]
      rw [List.countP_cons, List.countP_cons]
      simp
    · rw [List.find?_cons_of_neg (p := fun q : Nat × Option Nat => q.1 == a) tl hp]
        at hmem
      have ihh := ih hndtl hmem
      rw [List.map_cons, if_neg hp]
      rw [List.countP_cons, List.countP_cons]
      omega

theorem map_store_of_none (a : Nat) (l : List (Nat × Option Nat))
    (hnd : (l.map Prod.fst).Nodup)
    (hmem : l.find? (fun p => p.1 == a) = some (a, none)) :
    l.map (fun p => if p.1 == a then (a, (none : Option Nat)) else p) = l := by
  induction l with
  | nil => simp
  | cons p tl ih =>
    rw [List.map_cons, List.nodup_cons] at hnd
    obtain ⟨hnotin, hndtl⟩ := hnd
    by_cases hp : (p.1 == a) = true
    · rw [List.find?_cons_of_pos (p := fun q : Nat × Option Nat => q.1 == a) tl hp]
        at hmem
      have hpe : p = (a, none) := Option.some.inj hmem
      subst hpe
      have hna : a ∉ tl.map Prod.fst := by simpa using hnotin
      rw [List.map_cons, if_pos hp, store_fun_skips a tl hna]
    · rw [List.find?_cons_of_neg (p := fun q : Nat × Option Nat => q.1 == a) tl hp]
        at hmem
      rw [List.map_cons, if_neg hp, ih hndtl hmem]

/-- C1: getName on a handle whose ownership slot is populated with an
underlying model returns exactly that model name; in particular a handle
populated with a model named panda reports the name panda. -/
theorem C1_getName_roundtrip (m : Mem) (a mid : Nat) (r : RobotModel)
    (hs : m.lookup a = some (some mid)) (hr : m.modelAt mid = some r) :
    RobotModel_getName m (Handle.ptr a) = some (m, r.name) := by
  simp [RobotModel_getName, hs, hr]

/-- Instantiation of C1 on the concrete panda state: the round trip
returns the text panda. -/
theorem C1_getName_roundtrip_witness :
    memPanda.lookup 0 = some (some 0) ∧ memPanda.modelAt 0 = some pandaModel ∧
    RobotModel_getName memPanda (Handle.ptr 0) = some (memPanda, "panda") :=
  ⟨rfl, rfl, C1_getName_roundtrip memPanda 0 0 pandaModel rfl rfl⟩

/-- C2: destroy is a guarded no-op on the null handle, and on an allocated
handle it deallocates the handle cell. -/
theorem C2_delete_safe (m : Mem) (a : Nat) (s : Option Nat)
    (hs : m.lookup a = some s) :
    RobotModel_delete m Handle.null = some m ∧
    RobotModel_delete m (Handle.ptr a) = some (m.free a) ∧
    (m.free a).lookup a = none := by
  refine ⟨rfl, ?_, Mem.lookup_free m a⟩
  simp [RobotModel_delete, hs]

/-- Instantiation of C2 on the concrete panda state. -/
theorem C2_delete_safe_witness :
    RobotModel_delete memPanda Handle.null = some memPanda ∧
    RobotModel_delete memPanda (Handle.ptr 0) = some (memPanda.free 0) ∧
    (memPanda.free 0).lookup 0 = none :=
  C2_delete_safe memPanda 0 (some 0) rfl

/-- C3: clear on a populated handle resets the ownership slot to empty,
drops exactly one reference to the underlying model, and leaves the
handle cell itself allocated, so destroy still applies to it. -/
theorem C3_release_clears (m : Mem) (a mid : Nat)
    (hnd : (m.cells.map Prod.fst).Nodup)
    (hs : m.lookup a = some (some mid)) :
    RobotModel_release m (Handle.ptr a) = some (m.store a none) ∧
    (m.store a none).lookup a = some none ∧
    (m.store a none).refCount mid + 1 = m.refCount mid ∧
    RobotModel_delete (m.store a none) (Handle.ptr a)
      = some ((m.store a none).free a) := by
  have hsome : (m.lookup a).isSome := by rw [hs]; rfl
  have hls := Mem.lookup_store m a none hsome
  refine ⟨by simp [RobotModel_release, hs], hls, ?_, by simp [RobotModel_delete, hls]⟩
  have hfind := lookup_find? m a (some mid) hs
  simp only [Mem.refCount, Mem.store]
  exact countP_map_store a mid m.cells hnd hfind

/-- Instantiation of C3 on the concrete panda state. -/
theorem C3_release_clears_witness :
    RobotModel_release memPanda (Handle.ptr 0) = some (memPanda.store 0 none) ∧
    (memPanda.store 0 none).lookup 0 = some none ∧
    (memPanda.store 0 none).refCount 0 + 1 = memPanda.refCount 0 ∧
    RobotModel_delete (memPanda.store 0 none) (Handle.ptr 0)
      = some ((memPanda.store 0 none).free 0) :=
  C3_release_clears memPanda 0 0 (by decide) rfl

/-- C4: create always succeeds, returning a pointer to a freshly
allocated handle cell whose ownership slot is empty. -/
theorem C4_new_empty (m : Mem) :
    (RobotModel_new m).2 = Handle.ptr m.next ∧
    (RobotModel_new m).1.lookup m.next = some none := by
  constructor
  · rfl
  · simp [RobotModel_new, Mem.alloc, Mem.lookup]

/-- C5: the null guard in destroy is the only defensive check in the
binding: destroy is defined on the null handle, clear and every query
dereference a null handle without validation (undefined behaviour),
every query is likewise undefined on an allocated handle whose ownership
slot is empty, and under the respective preconditions (handle non-null
and allocated for clear, ownership slot additionally populated for the
queries) every error branch is unreachable. -/
theorem C5_null_guard_only (m : Mem) (a b mid : Nat) (r : RobotModel)
    (out : String)
    (hs : m.lookup a = some (some mid)) (hr : m.modelAt mid = some r)
    (hb : m.lookup b = some none) :
    RobotModel_delete m Handle.null = some m ∧
    RobotModel_release m Handle.null = none ∧
    RobotModel_getName m Handle.null = none ∧
    RobotModel_getModelFrame m Handle.null = none ∧
    RobotModel_isEmpty m Handle.null = none ∧
    RobotModel_printModelInfo m Handle.null out = none ∧
    RobotModel_getRootJointName m Handle.null = none ∧
    RobotModel_getName m (Handle.ptr b) = none ∧
    RobotModel_getModelFrame m (Handle.ptr b) = none ∧
    RobotModel_isEmpty m (Handle.ptr b) = none ∧
    RobotModel_printModelInfo m (Handle.ptr b) out = none ∧
    RobotModel_getRootJointName m (Handle.ptr b) = none ∧
    (RobotModel_release m (Handle.ptr a)).isSome ∧
    (RobotModel_release m (Handle.ptr b)).isSome ∧
    (RobotModel_getName m (Handle.ptr a)).isSome ∧
    (RobotModel_getModelFrame m (Handle.ptr a)).isSome ∧
    (RobotModel_isEmpty m (Handle.ptr a)).isSome ∧
    (RobotModel_printModelInfo m (Handle.ptr a) out).isSome ∧
    (RobotModel_getRootJointName m (Handle.ptr a)).isSome := by
  refine ⟨rfl, rfl, rfl, rfl, rfl, rfl, rfl,
    ?_, ?_, ?_, ?_, ?_, ?_, ?_, ?_, ?_, ?_, ?_, ?_⟩ <;>
    simp [RobotModel_release, RobotModel_getName, RobotModel_getModelFrame,
      RobotModel_isEmpty, RobotModel_printModelInfo, RobotModel_getRootJointName,
      hs, hr, hb]

/-- Instantiation of C5 on the concrete mixed state with a populated
handle at address 0 and an empty-slot handle at address 1. -/
theorem C5_null_guard_only_witness :
    RobotModel_delete memMixed Handle.null = some memMixed ∧
    RobotModel_release memMixed Handle.null = none ∧
    RobotModel_getName memMixed Handle.null = none ∧
    RobotModel_getModelFrame memMixed Handle.null = none ∧
    RobotModel_isEmpty memMixed Handle.null = none ∧
    RobotModel_printModelInfo memMixed Handle.null "" = none ∧
    RobotModel_getRootJointName memMixed Handle.null = none ∧
    RobotModel_getName memMixed (Handle.ptr 1) = none ∧
    RobotModel_getModelFrame memMixed (Handle.ptr 1) = none ∧
    RobotModel_isEmpty memMixed (Handle.ptr 1) = none ∧
    RobotModel_printModelInfo memMixed (Handle.ptr 1) "" = none ∧
    RobotModel_getRootJointName memMixed (Handle.ptr 1) = none ∧
    (RobotModel_release memMixed (Handle.ptr 0)).isSome ∧
    (RobotModel_release memMixed (Handle.ptr 1)).isSome ∧
    (RobotModel_getName memMixed (Handle.ptr 0)).isSome ∧
    (RobotModel_getModelFrame memMixed (Handle.ptr 0)).isSome ∧
    (RobotModel_isEmpty memMixed (Handle.ptr 0)).isSome ∧
    (RobotModel_printModelInfo memMixed (Handle.ptr 0) "").isSome ∧
    (RobotModel_getRootJointName memMixed (Handle.ptr 0)).isSome :=
  C5_null_guard_only memMixed 0 1 0 pandaModel "" rfl rfl rfl

/-- C6: printModelInfo on a populated handle returns the accumulated dump
text through the output parameter with no state change, and that text is
non-empty and contains the model name as a substring. -/
theorem C6_printModelInfo_dump (m : Mem) (a mid : Nat) (r : RobotModel)
    (out : String)
    (hs : m.lookup a = some (some mid)) (hr : m.modelAt mid = some r) :
    RobotModel_printModelInfo m (Handle.ptr a) out
      = some (m, r.printModelInfoText) ∧
    r.printModelInfoText ≠ "" ∧
    ∃ pre post, r.printModelInfoText = pre ++ r.name ++ post := by
  refine ⟨by simp [RobotModel_printModelInfo, hs, hr], ?_,
    "Model ", " in frame " ++ r.modelFrame, rfl⟩
  intro hcontra
  have hlen := congrArg String.length hcontra
  simp only [RobotModel.printModelInfoText, String.length_append] at hlen
  have h6 : ("Model " : String).length = 6 := rfl
  have h0 : ("" : String).length = 0 := rfl
  rw [h6, h0] at hlen
  omega

/-- Instantiation of C6 on the concrete panda state. -/
theorem C6_printModelInfo_dump_witness :
    RobotModel_printModelInfo memPanda (Handle.ptr 0) ""
      = some (memPanda, pandaModel.printModelInfoText) ∧
    pandaModel.printModelInfoText ≠ "" ∧
    ∃ pre post, pandaModel.printModelInfoText = pre ++ pandaModel.name ++ post :=
  C6_printModelInfo_dump memPanda 0 0 pandaModel "" rfl rfl

/-- C7: two handles whose ownership slots refer to the same underlying
model report the same getModelFrame value. -/
theorem C7_getModelFrame_shared (m : Mem) (a b mid : Nat)
    (ha : m.lookup a = some (some mid)) (hb : m.lookup b = some (some mid)) :
    RobotModel_getModelFrame m (Handle.ptr a)
      = RobotModel_getModelFrame m (Handle.ptr b) := by
  simp [RobotModel_getModelFrame, ha, hb]

/-- Instantiation of C7 on the concrete state with two handles sharing
the panda model. -/
theorem C7_getModelFrame_shared_witness :
    RobotModel_getModelFrame memShared (Handle.ptr 0)
      = RobotModel_getModelFrame memShared (Handle.ptr 1) :=
  C7_getModelFrame_shared memShared 0 1 0 rfl rfl

/-- C8: every query operation is read-only with respect to the machine
state: on a populated handle each query returns the unchanged state
paired with the forwarded value, so the ownership slot still refers to
the same model after the call. -/
theorem C8_queries_read_only (m : Mem) (a mid : Nat) (r : RobotModel)
    (out : String)
    (hs : m.lookup a = some (some mid)) (hr : m.modelAt mid = some r) :
    RobotModel_getName m (Handle.ptr a) = some (m, r.name) ∧
    RobotModel_getModelFrame m (Handle.ptr a) = some (m, r.modelFrame) ∧
    RobotModel_isEmpty m (Handle.ptr a) = some (m, r.isEmptyFlag) ∧
    RobotModel_printModelInfo m (Handle.ptr a) out
      = some (m, r.printModelInfoText) ∧
    RobotModel_getRootJointName m (Handle.ptr a) = some (m, r.rootJointName) := by
  refine ⟨?_, ?_, ?_, ?_, ?_⟩ <;>
    simp [RobotModel_getName, RobotModel_getModelFrame, RobotModel_isEmpty,
      RobotModel_printModelInfo, RobotModel_getRootJointName, hs, hr]

/-- Instantiation of C8 on the concrete panda state. -/
theorem C8_queries_read_only_witness :
    RobotModel_getName memPanda (Handle.ptr 0) = some (memPanda, pandaModel.name) ∧
    RobotModel_getModelFrame memPanda (Handle.ptr 0)
      = some (memPanda, pandaModel.modelFrame) ∧
    RobotModel_isEmpty memPanda (Handle.ptr 0)
      = some (memPanda, pandaModel.isEmptyFlag) ∧
    RobotModel_printModelInfo memPanda (Handle.ptr 0) ""
      = some (memPanda, pandaModel.printModelInfoText) ∧
    RobotModel_getRootJointName memPanda (Handle.ptr 0)
      = some (memPanda, pandaModel.rootJointName) :=
  C8_queries_read_only memPanda 0 0 pandaModel "" rfl rfl

/-- C9: clear is idempotent and safe on an allocated handle whatever its
slot holds: it is defined, leaves the slot empty, clearing twice equals
clearing once, and on an already empty slot it does not change the state
at all. -/
theorem C9_release_idempotent (m : Mem) (a : Nat) (s : Option Nat)
    (hnd : (m.cells.map Prod.fst).Nodup)
    (hs : m.lookup a = some s) :
    RobotModel_release m (Handle.ptr a) = some (m.store a none) ∧
    (m.store a none).lookup a = some none ∧
    RobotModel_release (m.store a none) (Handle.ptr a) = some (m.store a none) ∧
    (s = none → m.store a none = m) := by
  have hsome : (m.lookup a).isSome := by rw [hs]; rfl
  have hls := Mem.lookup_store m a none hsome
  refine ⟨by simp [RobotModel_release, hs], hls, ?_, ?_⟩
  · have hstep : RobotModel_release (m.store a none) (Handle.ptr a)
        = some ((m.store a none).store a none) := by
      simp [RobotModel_release, hls]
    rw [hstep, Mem.store_store]
  · intro hse
    subst hse
    have hfind := lookup_find? m a none hs
    simp only [Mem.store]
    rw [map_store_of_none a m.cells hnd hfind]

/-- Instantiation of C9 on a concrete state whose single handle has an
already empty slot. -/
theorem C9_release_idempotent_witness :
    RobotModel_release memCleared (Handle.ptr 0) = some (memCleared.store 0 none) ∧
    (memCleared.store 0 none).lookup 0 = some none ∧
    RobotModel_release (memCleared.store 0 none) (Handle.ptr 0)
      = some (memCleared.store 0 none) ∧
    ((none : Option Nat) = none → memCleared.store 0 none = memCleared) :=
  C9_release_idempotent memCleared 0 none (by decide) rfl

/-- C10: printModelInfo assigns rather than appends: its result is
independent of the prior value of the caller-supplied output string, and
on a populated handle the returned text is exactly the dump text. -/
theorem C10_printModelInfo_overwrites (m : Mem) (a mid : Nat) (r : RobotModel)
    (out out' : String)
    (hs : m.lookup a = some (some mid)) (hr : m.modelAt mid = some r) :
    RobotModel_printModelInfo m (Handle.ptr a) out
      = RobotModel_printModelInfo m (Handle.ptr a) out' ∧
    RobotModel_printModelInfo m (Handle.ptr a) out
      = some (m, r.printModelInfoText) :=
  ⟨rfl, by simp [RobotModel_printModelInfo, hs, hr]⟩

/-- Instantiation of C10 on the concrete panda state with two different
prior output values. -/
theorem C10_printModelInfo_overwrites_witness :
    RobotModel_printModelInfo memPanda (Handle.ptr 0) "stale"
      = RobotModel_printModelInfo memPanda (Handle.ptr 0) "other" ∧
    RobotModel_printModelInfo memPanda (Handle.ptr 0) "stale"
      = some (memPanda, pandaModel.printModelInfoText) :=
  C10_printModelInfo_overwrites memPanda 0 0 pandaModel "stale" "other" rfl rfl
